import Mathlib

/-!
Verification of the openpalace core against its specification.

This file gives a shallow embedding, in Lean 4, of the parts of the
`palace` Python package that the specification's claims are about:

* `palace/core/ast_fingerprint.py` — structural AST hashing (`hash_ast_structure`,
  `hash_file_ast`);
* `palace/core/bloom_filter.py` — `CompressedBloomFilter` (`add`, `contains`,
  `union`, `intersection`, and the sizing formulas of `__init__`);
* `palace/core/toon.py` — `ASTSummary.to_toon` and the TOON encoder;
* `palace/core/agent_interface.py` — `AgentQueryInterface.query_artifact`;
* `palace/ingest/resolver.py` — `ImportPathResolver.resolve` for JS/TS imports;
* `palace/ingest/pipeline.py` — `BigBangPipeline.ingest_file`.

Python strings become Lean `String`, Python ints become `Nat`/`Int` (with
explicit wrap-around where the code relies on 32-bit arithmetic inside
SHA-256), Python dicts with optional keys become structures of `Option`
fields, and raising code is modelled with `Except`.  External collaborators
(the `mmh3` hash, the tree-sitter parser, the filesystem, the Kuzu graph
lookups) are passed in as function parameters, since they are out of scope
for the core.  `hashlib.sha256(...).hexdigest()` is modelled by a full
executable implementation of FIPS 180-4 SHA-256 over `Nat`, so that hash
values of concrete inputs can be computed inside proofs.

Floating-point arithmetic appears only in the Bloom sizing formulas of
`CompressedBloomFilter.__init__`; those are modelled over `ℝ` with `Real.log`
(the derivations below stay far from the rounding error of `float64`, so the
real-valued model is decisive for the claims about them).
-/

/-! ## SHA-256 (model of `hashlib.sha256(...).hexdigest()`)

An executable implementation of SHA-256 over `Nat`, with 32-bit words
represented as naturals reduced mod `2^32`.  Verified against the FIPS
test vectors (see `sha256hex_empty_vector` and `sha256hex_abc_vector`
below). -/

namespace SHA256

/-- Reduce to a 32-bit word. -/
def w32 (x : Nat) : Nat := x % 4294967296

/-- Rotate a 32-bit word right by `n`. -/
def rotr32 (x n : Nat) : Nat := w32 ((x >>> n) ||| (x <<< (32 - n)))

/-- The SHA-256 `Ch` function (`(x ∧ y) ⊕ (¬x ∧ z)`). -/
def ch (x y z : Nat) : Nat := (x &&& y) ^^^ ((x ^^^ 4294967295) &&& z)

/-- The SHA-256 `Maj` function. -/
def maj (x y z : Nat) : Nat := (x &&& y) ^^^ (x &&& z) ^^^ (y &&& z)

/-- Big sigma-0. -/
def bsig0 (x : Nat) : Nat := rotr32 x 2 ^^^ rotr32 x 13 ^^^ rotr32 x 22

/-- Big sigma-1. -/
def bsig1 (x : Nat) : Nat := rotr32 x 6 ^^^ rotr32 x 11 ^^^ rotr32 x 25

/-- Small sigma-0. -/
def ssig0 (x : Nat) : Nat := rotr32 x 7 ^^^ rotr32 x 18 ^^^ (x >>> 3)

/-- Small sigma-1. -/
def ssig1 (x : Nat) : Nat := rotr32 x 17 ^^^ rotr32 x 19 ^^^ (x >>> 10)

/-- The 64 round constants of SHA-256 (FIPS 180-4, here in decimal). -/
def K256 : List Nat :=
  [1116352408, 1899447441, 3049323471, 3921009573, 961987163,
   1508970993, 2453635748, 2870763221, 3624381080, 310598401,
   607225278, 1426881987, 1925078388, 2162078206, 2614888103,
   3248222580, 3835390401, 4022224774, 264347078, 604807628,
   770255983, 1249150122, 1555081692, 1996064986, 2554220882,
   2821834349, 2952996808, 3210313671, 3336571891, 3584528711,
   113926993, 338241895, 666307205, 773529912, 1294757372,
   1396182291, 1695183700, 1986661051, 2177026350, 2456956037,
   2730485921, 2820302411, 3259730800, 3345764771, 3516065817,
   3600352804, 4094571909, 275423344, 430227734, 506948616,
   659060556, 883997877, 958139571, 1322822218, 1537002063,
   1747873779, 1955562222, 2024104815, 2227730452, 2361852424,
   2428436474, 2756734187, 3204031479, 3329325298]

/-- Initial hash state of SHA-256 (FIPS 180-4, here in decimal). -/
def H256 : List Nat :=
  [1779033703, 3144134277, 1013904242, 2773480762,
   1359893119, 2600822924, 528734635, 1541459225]

/-- UTF-8 encoding of one character (model of Python `str.encode()` per char). -/
def encodeChar (c : Char) : List Nat :=
  let n := c.toNat
  if n < 0x80 then [n]
  else if n < 0x800 then [0xC0 ||| (n >>> 6), 0x80 ||| (n &&& 0x3F)]
  else if n < 0x10000 then
    [0xE0 ||| (n >>> 12), 0x80 ||| ((n >>> 6) &&& 0x3F), 0x80 ||| (n &&& 0x3F)]
  else
    [0xF0 ||| (n >>> 18), 0x80 ||| ((n >>> 12) &&& 0x3F), 0x80 ||| ((n >>> 6) &&& 0x3F),
     0x80 ||| (n &&& 0x3F)]

/-- UTF-8 byte sequence of a string (model of Python `str.encode()`). -/
def utf8Bytes (s : String) : List Nat :=
  s.data.foldr (fun c acc => encodeChar c ++ acc) []

/-- `k` big-endian bytes of `n`. -/
def beBytes (k n : Nat) : List Nat :=
  (List.range k).map (fun i => (n >>> (8 * (k - 1 - i))) &&& 0xFF)

/-- SHA-256 padding: append `0x80`, zero bytes to 56 mod 64, then the
64-bit big-endian bit length. -/
def padMessage (msg : List Nat) : List Nat :=
  let padZeros := (119 - msg.length % 64) % 64
  msg ++ [0x80] ++ List.replicate padZeros 0 ++ beBytes 8 (8 * msg.length)

/-- Split into 64-byte blocks (fuel-based so that it reduces in the kernel). -/
def toBlocksAux : Nat → List Nat → List (List Nat)
  | _, [] => []
  | 0, _ :: _ => []
  | fuel + 1, a :: rest => (a :: rest).take 64 :: toBlocksAux fuel ((a :: rest).drop 64)

/-- Split a byte list into 64-byte blocks. -/
def toBlocks (l : List Nat) : List (List Nat) := toBlocksAux l.length l

/-- Group bytes into 32-bit big-endian words. -/
def toWords : List Nat → List Nat
  | b0 :: b1 :: b2 :: b3 :: rest =>
    ((b0 <<< 24) ||| (b1 <<< 16) ||| (b2 <<< 8) ||| b3) :: toWords rest
  | _ => []

/-- Extend the message schedule by `n` further words. -/
def extendSchedule (w : List Nat) : Nat → List Nat
  | 0 => w
  | n + 1 =>
    extendSchedule
      (w ++ [w32 (ssig1 (w.getD (w.length - 2) 0) + w.getD (w.length - 7) 0 +
                  ssig0 (w.getD (w.length - 15) 0) + w.getD (w.length - 16) 0)]) n

/-- The 64-word message schedule of a block. -/
def schedule (block : List Nat) : List Nat := extendSchedule (toWords block) 48

/-- One SHA-256 round on the 8-word working state. -/
def roundStep (st : List Nat) (kw : Nat × Nat) : List Nat :=
  match st with
  | [a, b, c, d, e, f, g, h] =>
    let t1 := w32 (h + bsig1 e + ch e f g + kw.1 + kw.2)
    let t2 := w32 (bsig0 a + maj a b c)
    [w32 (t1 + t2), a, b, c, w32 (d + t1), e, f, g]
  | _ => st

/-- Compress one 64-byte block into the hash state. -/
def compress (h : List Nat) (block : List Nat) : List Nat :=
  let st := (K256.zip (schedule block)).foldl roundStep h
  (h.zip st).map (fun p => w32 (p.1 + p.2))

/-- Lowercase hex digit. -/
def hexChar (n : Nat) : Char := if n < 10 then Char.ofNat (48 + n) else Char.ofNat (87 + n)

/-- Eight lowercase hex digits of a 32-bit word, most significant first. -/
def toHex8 (n : Nat) : List Char :=
  (List.range 8).map (fun i => hexChar ((n >>> (4 * (7 - i))) &&& 0xF))

/-- `hashlib.sha256(s.encode()).hexdigest()`: the lowercase-hex SHA-256
digest of the UTF-8 encoding of `s`. -/
def sha256hex (s : String) : String :=
  String.mk ((((toBlocks (padMessage (utf8Bytes s))).foldl compress H256).map toHex8).foldr
    (· ++ ·) [])

end SHA256

/-! ## String helpers

Executable counterparts of the Python string operations the embedded code
uses.  Lean's built-in `String.append`/`String.le` do not reduce inside the
kernel, so concatenation is done through the underlying character lists and
comparison is the code-point lexicographic order that Python uses for
`str` comparison and `list.sort()`. -/

namespace StrUtil

/-- Concatenation of a list of strings through their character lists
(reduces in the kernel, unlike `String.append`). -/
def strConcat (parts : List String) : String :=
  String.mk (parts.foldr (fun s acc => s.data ++ acc) [])

/-- Code-point lexicographic comparison of character lists: exactly the
order Python uses to compare `str` values. -/
def lexLe : List Char → List Char → Bool
  | [], _ => true
  | _ :: _, [] => false
  | a :: as, b :: bs => if a < b then true else if b < a then false else lexLe as bs

/-- Python's `<=` on strings (code-point lexicographic). -/
def strLe (a b : String) : Bool := lexLe a.data b.data

/-- Python's `list.sort()` on a list of strings.  Python uses a stable sort
with respect to a total antisymmetric order, for which the sorted
permutation is unique; insertion sort computes the same list. -/
def pySortStrings (l : List String) : List String :=
  List.insertionSort (fun a b => strLe a b = true) l

/-- Python's `','.join(l)`. -/
def commaJoin (l : List String) : String := strConcat (List.intersperse "," l)

/-- Join with a separator: Python's `sep.join(l)`. -/
def joinWith (sep : String) (l : List String) : String :=
  strConcat (List.intersperse sep l)

/-- Python's `s.startswith(pre)`. -/
def pyStartsWith (s pre : String) : Bool := pre.data.isPrefixOf s.data

/-- Split on a single separator character; Python's `s.split(c)` (which
returns `[s]` when the separator does not occur, and `['']` for `''`). -/
def splitOnCharAux (sep : Char) : List Char → List Char → List (List Char)
  | [], acc => [acc.reverse]
  | c :: rest, acc =>
    if c = sep then acc.reverse :: splitOnCharAux sep rest []
    else splitOnCharAux sep rest (c :: acc)

/-- Python's `s.split(sep)` for a one-character separator. -/
def pySplitOn (s : String) (sep : Char) : List String :=
  (splitOnCharAux sep s.data []).map String.mk

/-- First segment of `s.split(sep)` — Python's `s.split(sep)[0]`. -/
def firstSegment (s : String) (sep : Char) : String := (pySplitOn s sep).headD s

/-- Strip characters of `cs` from both ends — Python's `s.strip(chars)`. -/
def pyStripChars (s : String) (cs : List Char) : String :=
  String.mk (((s.data.dropWhile (· ∈ cs)).reverse.dropWhile (· ∈ cs)).reverse)

/-- ASCII whitespace, for the model of Python's `s.strip()`. -/
def wsChars : List Char := [' ', '\t', '\n', '\r']

/-- Decimal representation of a natural number (model of Python
`str(n)` for a non-negative int); fuel-based so it reduces. -/
def natDecimalAux : Nat → Nat → List Char
  | _, 0 => []
  | 0, _ => []
  | n + 1, fuel + 1 =>
    natDecimalAux ((n + 1) / 10) fuel ++ [Char.ofNat (48 + (n + 1) % 10)]

/-- Decimal representation of a natural number. -/
def natDecimal (n : Nat) : String :=
  if n = 0 then "0" else String.mk (natDecimalAux n n)

end StrUtil

/-! ## AST fingerprinting (`palace/core/ast_fingerprint.py`)

A tree-sitter node is modelled by its node-type string, its `is_named`
flag, and its children.  The Python `hash_ast_structure(node, content)`
takes a dynamically-typed argument: `None` (or any value without a `type`
attribute) selects the fallback branch; that argument is modelled as
`Option TSNode`, with `none` covering both.  The recursive calls always
pass an actual child node, embedded as `hashNode`.  The `content`
parameter is threaded through by the source but never used in the hash;
it is kept here for fidelity. -/

namespace Fingerprint

/-- A tree-sitter syntax node: `node.type`, `node.is_named`, `node.children`. -/
inductive TSNode where
  | mk (type : String) (is_named : Bool) (children : List TSNode)

/-- `node.type`. -/
def TSNode.type : TSNode → String
  | .mk t _ _ => t

/-- `node.is_named`. -/
def TSNode.is_named : TSNode → Bool
  | .mk _ b _ => b

/-- `node.children`. -/
def TSNode.children : TSNode → List TSNode
  | .mk _ _ cs => cs

/-- The recursive body of `hash_ast_structure` on an actual node:
filter the named children, hash each recursively, sort the child hashes
(Python `list.sort()`), join them with `','` and prepend `"type:"`,
then SHA-256 the result; a node with no named children hashes just its
type string.  (`named.attach` only carries the membership proof used for
termination; see `hashNode_eq` for the plain unfolding.) -/
def hashNode : TSNode → String
  | .mk t _ cs =>
    let named := cs.filter (fun c => c.is_named)
    let child_hashes := named.attach.map (fun c => hashNode c.1)
    if child_hashes.isEmpty then SHA256.sha256hex t
    else
      SHA256.sha256hex
        (StrUtil.strConcat [t, ":", StrUtil.commaJoin (StrUtil.pySortStrings child_hashes)])
termination_by n => sizeOf n
decreasing_by
  simp_wf
  rename_i t cs
  have hm : c.1 ∈ cs.filter (fun c => c.is_named) := c.2
  have h2 : c.1 ∈ cs := (List.mem_filter.mp hm).1
  have h3 := List.sizeOf_lt_of_mem h2
  omega

/-- `hash_ast_structure(node, content)`: `none` models `node is None` or a
value without a `type` attribute (the guard `if not node or not
hasattr(node, 'type')`), which returns `hashlib.sha256(b"").hexdigest()`. -/
def hash_ast_structure (node : Option TSNode) (_content : String := "") : String :=
  match node with
  | none => SHA256.sha256hex ""
  | some n => hashNode n

/-- `hash_file_ast(code, parser)`.  The external parser collaborator is
`Option (String → Option TSNode)`: `none` models `if not parser` (no
parser available), and `parse code = none` models the cases where
`parser.parse` raises, returns no tree, or a falsy `root_node` — all of
which fall back to `hashlib.sha256(code.encode()).hexdigest()`. -/
def hash_file_ast (code : String) (parser : Option (String → Option TSNode)) : String :=
  match parser with
  | none => SHA256.sha256hex code
  | some parse =>
    match parse code with
    | none => SHA256.sha256hex code
    | some root => hash_ast_structure (some root) code

end Fingerprint

/-! ## Bloom filter (`palace/core/bloom_filter.py`)

The live state of a `CompressedBloomFilter`: the sizing configuration,
the byte array, and the `_items` set kept for serialization.  The
`mmh3.hash(item, seed=seed, signed=False)` collaborator is an external
C library and is passed in as a function parameter `mmh3`; `add` and
`contains` are deterministic given it.  `bit_array` is a list of byte
values (`numpy uint8`), as in the source; `__init__` guarantees
`bit_array.length = size_bytes = (size_bits + 7) / 8`.  The
`false_positive_rate` float is configuration only (it is never read by
`add`/`contains`/`union`/`intersection` except to rebuild a filter of the
same configuration) and is not stored in the model. -/

namespace Bloom

/-- Live state of a `CompressedBloomFilter`. -/
structure CompressedBloomFilter where
  expected_items : Nat
  size_bits : Nat
  num_hashes : Nat
  hash_seeds : List Nat
  bit_array : List Nat
  items : List String
deriving DecidableEq

/-- `_hashes(item)`: one bit position per seed,
`mmh3.hash(item, seed) % size_bits`. -/
def hashesOf (mmh3 : String → Nat → Nat) (bf : CompressedBloomFilter) (item : String) :
    List Nat :=
  bf.hash_seeds.map (fun seed => mmh3 item seed % bf.size_bits)

/-- `bit_array[pos // 8] |= (1 << (pos % 8))`. -/
def setBit (arr : List Nat) (pos : Nat) : List Nat :=
  arr.set (pos / 8) (arr.getD (pos / 8) 0 ||| (1 <<< (pos % 8)))

/-- `(bit_array[pos // 8] & (1 << (pos % 8))) != 0`. -/
def getBit (arr : List Nat) (pos : Nat) : Bool :=
  arr.getD (pos / 8) 0 &&& (1 <<< (pos % 8)) != 0

/-- `add(item)`: set the `k` bits of `_hashes(item)` and record the item
in `_items` (Python `set.add`). -/
def add (mmh3 : String → Nat → Nat) (bf : CompressedBloomFilter) (item : String) :
    CompressedBloomFilter :=
  { bf with
    bit_array := (hashesOf mmh3 bf item).foldl setBit bf.bit_array
    items := bf.items.insert item }

/-- `add_batch(items)`: `add` each item in order. -/
def add_batch (mmh3 : String → Nat → Nat) (bf : CompressedBloomFilter)
    (items : List String) : CompressedBloomFilter :=
  items.foldl (add mmh3) bf

/-- `contains(item)`: true iff every bit of `_hashes(item)` is set. -/
def contains (mmh3 : String → Nat → Nat) (bf : CompressedBloomFilter) (item : String) :
    Bool :=
  (hashesOf mmh3 bf item).all (fun pos => getBit bf.bit_array pos)

/-- `union(other)`: raises `ValueError` unless `size_bits` and `num_hashes`
agree (the seeds are *not* compared by the source); otherwise a fresh
filter of `self`'s configuration whose `bit_array` is the bytewise OR and
whose `_items` is the set union. -/
def union (a b : CompressedBloomFilter) : Except String CompressedBloomFilter :=
  if a.size_bits ≠ b.size_bits ∨ a.num_hashes ≠ b.num_hashes then
    Except.error "Cannot union filters with different configurations"
  else
    Except.ok
      { a with
        bit_array := a.bit_array.zipWith (· ||| ·) b.bit_array
        items := a.items.union b.items }

/-- `intersection(other)`: same configuration check as `union` (again the
seeds are not compared); bytewise AND and `_items` intersection. -/
def intersection (a b : CompressedBloomFilter) : Except String CompressedBloomFilter :=
  if a.size_bits ≠ b.size_bits ∨ a.num_hashes ≠ b.num_hashes then
    Except.error "Cannot intersect filters with different configurations"
  else
    Except.ok
      { a with
        bit_array := a.bit_array.zipWith (· &&& ·) b.bit_array
        items := a.items.inter b.items }

/-- Whether an `Except`-valued operation succeeded. -/
def exceptOk (e : Except String CompressedBloomFilter) : Bool :=
  match e with
  | .ok _ => true
  | .error _ => false

/-! ### Sizing formulas of `__init__` (real-valued model)

`__init__` computes
`size_bits  = int(-expected_items * np.log(p) / (np.log(2) ** 2))` and
`num_hashes = int((size_bits / expected_items) * np.log(2))`.
Python `int()` on a float truncates toward zero; `np.log` is the natural
logarithm in `float64`.  The model below replaces `float64` with `ℝ`
(the claims decided with it are at distance ≥ 0.03 from the nearest
integer boundary, far beyond `float64` rounding error). -/

/-- Python `int()` on a real value: truncation toward zero. -/
noncomputable def pyTrunc (x : ℝ) : ℤ := if 0 ≤ x then ⌊x⌋ else ⌈x⌉

/-- `self.size_bits` as computed by `__init__` for `expected_items = n`
and `false_positive_rate = p`. -/
noncomputable def init_size_bits (n : ℕ) (p : ℝ) : ℤ :=
  pyTrunc (-(n : ℝ) * Real.log p / (Real.log 2) ^ 2)

/-- `self.num_hashes` as computed by `__init__`. -/
noncomputable def init_num_hashes (n : ℕ) (p : ℝ) : ℤ :=
  pyTrunc ((init_size_bits n p : ℝ) / (n : ℝ) * Real.log 2)

end Bloom

/-! ## TOON encoder (`palace/core/toon.py`)

`ASTSummary` carries function/class entries that the source represents as
Python dicts.  `to_toon` reads `func['name']` and `cls['name']` with plain
indexing — a `KeyError` if the key is absent — and the other keys with
`.get(key, default)`.  The dict entries are therefore modelled as
structures of `Option` fields, and `to_toon` returns
`Except String String`, where `Except.error` models the raised
`KeyError`. -/

namespace Toon

/-- A function entry dict: keys `name`, `parameters`, `return_type`,
`calls`, each possibly absent. -/
structure FunctionEntry where
  name : Option String
  parameters : Option (List String)
  return_type : Option String
  calls : Option (List String)

/-- A method entry dict inside a class entry. -/
structure MethodEntry where
  name : Option String
  parameters : Option (List String)
  return_type : Option String

/-- A class entry dict: keys `name` and `methods`. -/
structure ClassEntry where
  name : Option String
  methods : Option (List MethodEntry)

/-- `ASTSummary`: the transient summary value fed to the TOON encoder. -/
structure ASTSummary where
  file_path : String
  language : String
  functions : List FunctionEntry
  classes : List ClassEntry
  imports : List String
  exports : List String

/-- The lines emitted for one function entry: `func['name']` raises
`KeyError` when absent; `func.get('parameters', [])` and
`func.get('return_type', 'None')` default; the `calls:` line is emitted
only when the key is present and the list non-empty
(`if 'calls' in func and func['calls']`). -/
def functionLines (f : FunctionEntry) : Except String (List String) :=
  match f.name with
  | none => Except.error "KeyError: 'name'"
  | some name =>
    let params := StrUtil.joinWith ", " (f.parameters.getD [])
    let ret := (f.return_type).getD "None"
    let base := StrUtil.strConcat ["    - ", name, "(", params, ") -> ", ret]
    match f.calls with
    | some (c :: cs) =>
      Except.ok [base, StrUtil.strConcat ["      calls: ", StrUtil.joinWith ", " (c :: cs)]]
    | _ => Except.ok [base]

/-- The line emitted for one method entry (`method['name']` raises when
absent). -/
def methodLine (m : MethodEntry) : Except String String :=
  match m.name with
  | none => Except.error "KeyError: 'name'"
  | some name =>
    let params := StrUtil.joinWith ", " (m.parameters.getD [])
    let ret := (m.return_type).getD "None"
    Except.ok (StrUtil.strConcat ["      - ", name, "(", params, ") -> ", ret])

/-- The lines emitted for one class entry: `cls['name']` raises when
absent; methods are emitted only when the key is present and truthy
(`if 'methods' in cls and cls['methods']`). -/
def classLines (c : ClassEntry) : Except String (List String) :=
  match c.name with
  | none => Except.error "KeyError: 'name'"
  | some name =>
    let header := StrUtil.strConcat ["    - ", name, ":"]
    match c.methods with
    | some (m :: ms) => do
      let mls ← (m :: ms).mapM methodLine
      Except.ok (header :: mls)
    | _ => Except.ok [header]

/-- `ASTSummary.to_toon()`: header and language line, then the optional
`imports`/`exports`/`functions`/`classes` blocks, joined with newlines.
Identifiers are emitted verbatim — the source performs no `?`
substitution and no quoting. -/
def to_toon (s : ASTSummary) : Except String String := do
  let importLines :=
    if s.imports.isEmpty then []
    else "  imports:" :: s.imports.map (fun i => StrUtil.strConcat ["    - ", i])
  let exportLines :=
    if s.exports.isEmpty then []
    else "  exports:" :: s.exports.map (fun e => StrUtil.strConcat ["    - ", e])
  let functionBlock ←
    if s.functions.isEmpty then pure []
    else do
      let ls ← s.functions.mapM functionLines
      pure ("  functions:" :: ls.flatten)
  let classBlock ←
    if s.classes.isEmpty then pure []
    else do
      let ls ← s.classes.mapM classLines
      pure ("  classes:" :: ls.flatten)
  Except.ok
    (StrUtil.joinWith "\n"
      ([StrUtil.strConcat [s.file_path, ":"], StrUtil.strConcat ["  language: ", s.language]] ++
        importLines ++ exportLines ++ functionBlock ++ classBlock))

/-- `TOONEncoder.estimate_tokens`: `len(toon_string) // 4`. -/
def estimate_tokens (toon_string : String) : Nat := toon_string.length / 4

/-- `TOONEncoder.encode_graph_context(main, deps, dependency_type)`:
`"# " + main.file_path`, the main summary, and — when there are
dependencies — a `"\n# TYPE (n files)"` header followed by
`"\n## " + dep.file_path` and the dependency summary for each, all
joined with newlines. -/
def encode_graph_context (main : ASTSummary) (deps : List ASTSummary)
    (dependency_type : String) : Except String String := do
  let mainToon ← to_toon main
  let depLines ←
    if deps.isEmpty then pure []
    else do
      let parts ← deps.mapM (fun d => do
        let t ← to_toon d
        pure [StrUtil.strConcat ["\n## ", d.file_path], t])
      pure
        (StrUtil.strConcat
          ["\n# ", dependency_type, " (", StrUtil.natDecimal deps.length, " files)"] ::
          parts.flatten)
  Except.ok
    (StrUtil.joinWith "\n"
      ([StrUtil.strConcat ["# ", main.file_path], mainToon] ++ depLines))

/-- Whether an emission succeeded (no exception). -/
def emitOk {a : Type} (e : Except String a) : Bool :=
  match e with
  | .ok _ => true
  | .error _ => false

/-- All the `name` keys that `to_toon` reads with raising dict indexing
are present: every function entry, every class entry, and every method of
a class whose `methods` key is present. -/
def namesPresent (s : ASTSummary) : Bool :=
  s.functions.all (fun f => f.name.isSome) &&
  s.classes.all (fun c =>
    c.name.isSome &&
    (match c.methods with
     | some ms => ms.all (fun m => m.name.isSome)
     | none => true))

/-- `export_to_agent(main_file, main_summary, dependency_summaries)`
(the `main_file` argument is accepted and ignored by the source). -/
def export_to_agent (_main_file : String) (main_summary : ASTSummary)
    (dependency_summaries : List ASTSummary) : Except String String :=
  encode_graph_context main_summary dependency_summaries "DEPENDS_ON"

end Toon

/-- Decidable equality for `Except` values (used to evaluate the embedded
operations at concrete inputs). -/
instance {e a : Type} [DecidableEq e] [DecidableEq a] : DecidableEq (Except e a)
  | .ok x, .ok y =>
    if h : x = y then .isTrue (h ▸ rfl) else .isFalse (fun he => h (Except.ok.inj he))
  | .error x, .error y =>
    if h : x = y then .isTrue (h ▸ rfl) else .isFalse (fun he => h (Except.error.inj he))
  | .ok _, .error _ => .isFalse Except.noConfusion
  | .error _, .ok _ => .isFalse Except.noConfusion

/-! ## Agent query interface (`palace/core/agent_interface.py`)

`AgentQueryInterface.query_artifact` probes the Bloom filter, fetches the
node from the graph, collects dependencies by a Cypher traversal, parses
each artifact into an `ASTSummary` and emits TOON.  The graph store is
modelled by two oracles: `get_node` (`hippocampus.get_node`, with `none`
for a falsy/absent node) and `get_deps` (the `DEPENDS_ON*1..d` traversal
returning dependency ids).  `_parse_artifact` is the source's placeholder
implementation: it always returns a summary built from the node's `path`
and `language` properties with empty lists, never `None`.  The wall-clock
`duration_ms` field (from `time.time()`) is outside the shallow embedding
and is omitted from the modelled `QueryResult`; no claim concerns it. -/

namespace Agent

/-- The properties of an artifact node read by `_parse_artifact`
(`node.get("path", "unknown")`, `node.get("language", "unknown")`). -/
structure ArtifactNode where
  path : Option String
  language : Option String

/-- `QueryResult` (without the wall-clock `duration_ms` field). -/
structure QueryResult where
  toon_format : String
  files_parsed : Nat
  tokens_estimated : Nat
  bloom_hit : Bool
  dependencies_found : Nat
deriving DecidableEq

/-- `_parse_artifact(artifact_node)`: the source's placeholder summary. -/
def parse_artifact (node : ArtifactNode) : Toon.ASTSummary :=
  { file_path := node.path.getD "unknown"
    language := node.language.getD "unknown"
    functions := []
    classes := []
    imports := []
    exports := [] }

/-- `query_artifact(artifact_id, include_dependencies, max_depth)`.
Emission errors (which the Python code would raise) propagate as
`Except.error`; every returned result is wrapped in `Except.ok`. -/
def query_artifact (mmh3 : String → Nat → Nat) (bf : Bloom.CompressedBloomFilter)
    (get_node : String → Option ArtifactNode) (get_deps : String → Nat → List String)
    (artifact_id : String) (include_dependencies : Bool := true) (max_depth : Nat := 2) :
    Except String QueryResult :=
  if Bloom.contains mmh3 bf artifact_id = false then
    Except.ok
      { toon_format := StrUtil.strConcat ["# Artifact not found: ", artifact_id]
        files_parsed := 0
        tokens_estimated := 0
        bloom_hit := false
        dependencies_found := 0 }
  else
    match get_node artifact_id with
    | none =>
      Except.ok
        { toon_format := StrUtil.strConcat ["# Artifact node not found: ", artifact_id]
          files_parsed := 0
          tokens_estimated := 0
          bloom_hit := true
          dependencies_found := 0 }
    | some node => do
      let dependencies := if include_dependencies then get_deps artifact_id max_depth else []
      let main_summary := parse_artifact node
      let depNodes := dependencies.filterMap get_node
      let dependency_summaries := depNodes.map parse_artifact
      let files_parsed := 1 + depNodes.length
      let toon_output ← Toon.export_to_agent artifact_id main_summary dependency_summaries
      Except.ok
        { toon_format := toon_output
          files_parsed := files_parsed
          tokens_estimated := Toon.estimate_tokens toon_output
          bloom_hit := true
          dependencies_found := dependencies.length }

end Agent

/-! ## Import resolver (`palace/ingest/resolver.py`)

`ImportPathResolver.resolve` for the JS/TS/Python/Go language tags.
Paths are modelled as strings joined with `/`; the filesystem
(`Path.exists`) is the oracle `fs`, the artifact lookup
(`_lookup_artifact_id`, a graph query plus cache) is the oracle `lookup`,
and `_resolve_absolute_path` (which consults the process working
directory and the project root) is the oracle `absResolve`, with `none`
for its `None` result.  `pathlib`'s collapsing of `.` components is not
modelled in `joinPath` — the oracles absorb it; no claim depends on it. -/

namespace Resolver

/-- Result of resolving an import path (`ResolutionResult`). -/
structure ResolutionResult where
  artifact_id : Option String
  file_path : Option String
  is_external : Bool
deriving DecidableEq

/-- `PYTHON_STDLIB` (copied from the source). -/
def PYTHON_STDLIB : List String :=
  ["abc", "aifc", "argparse", "array", "ast", "asynchat", "asyncio",
   "asyncore", "atexit", "audioop", "base64", "bdb", "binascii", "binhex",
   "bisect", "builtins", "bz2", "calendar", "cgi", "cgitb", "chunk",
   "cmath", "cmd", "code", "codecs", "codeop", "collections", "colorsys",
   "compileall", "concurrent", "configparser", "contextlib", "contextvars",
   "copy", "copyreg", "cProfile", "crypt", "csv", "ctypes", "curses",
   "dataclasses", "datetime", "dbm", "decimal", "difflib", "dis", "distutils",
   "doctest", "email", "encodings", "enum", "errno", "faulthandler", "fcntl",
   "filecmp", "fileinput", "fnmatch", "formatter", "fractions", "ftplib",
   "functools", "gc", "getopt", "getpass", "gettext", "glob", "graphlib",
   "grp", "gzip", "hashlib", "heapq", "hmac", "html", "http", "imaplib",
   "imghdr", "imp", "importlib", "inspect", "io", "ipaddress", "itertools",
   "json", "keyword", "lib2to3", "linecache", "locale", "logging", "lzma",
   "mailbox", "mailcap", "marshal", "math", "mimetypes", "mmap", "modulefinder",
   "msilib", "msvcrt", "multiprocessing", "netrc", "nis", "nntplib", "numbers",
   "operator", "optparse", "os", "ossaudiodev", "pathlib", "pdb", "pickle",
   "pickletools", "pipes", "pkgutil", "platform", "plistlib", "poplib", "posix",
   "posixpath", "pprint", "profile", "pstats", "pty", "pwd", "py_compile",
   "pyclbr", "pydoc", "queue", "quopri", "random", "re", "readline", "reprlib",
   "resource", "rlcompleter", "runpy", "sched", "secrets", "select", "selectors",
   "shelve", "shlex", "shutil", "signal", "site", "smtpd", "smtplib", "sndhdr",
   "socket", "socketserver", "spwd", "sqlite3", "ssl", "stat", "statistics",
   "string", "stringprep", "struct", "subprocess", "sunau", "symbol", "symtable",
   "sys", "sysconfig", "syslog", "tabnanny", "tarfile", "telnetlib", "tempfile",
   "termios", "test", "textwrap", "threading", "time", "timeit", "tkinter",
   "token", "tokenize", "tomllib", "trace", "traceback", "tracemalloc", "tty",
   "turtle", "turtledemo", "types", "typing", "typing_extensions", "unicodedata",
   "unittest", "urllib", "uu", "uuid", "venv", "warnings", "wave", "weakref",
   "webbrowser", "winreg", "winsound", "wsgiref", "xdrlib", "xml", "xmlrpc",
   "zipapp", "zipfile", "zipimport", "zlib", "zoneinfo"]

/-- `NODE_EXTERNAL_PREFIXES` (copied from the source). -/
def NODE_EXTERNAL_PACKAGES : List String :=
  ["react", "react-dom", "vue", "angular", "lodash", "axios", "express",
   "moment", "date-fns", "webpack", "babel", "eslint", "prettier", "jest",
   "vitest", "typescript", "@types", "@mui", "@ant-design", "@chakra-ui"]

/-- `GO_STDLIB` (copied from the source). -/
def GO_STDLIB : List String :=
  ["fmt", "os", "io", "bufio", "bytes", "strings", "strconv", "math",
   "time", "http", "net", "context", "sync", "database/sql", "encoding",
   "json", "xml", "log", "path", "filepath", "sort", "reflect"]

/-- The quote characters stripped by `import_path.strip('"\x27')`. -/
def quoteChars : List Char := [Char.ofNat 34, Char.ofNat 39]

/-- Python's `s.lstrip(chars)`. -/
def pyLStrip (s : String) (cs : List Char) : String :=
  String.mk (s.data.dropWhile (· ∈ cs))

/-- `import_path.replace('\x5c', '/')` (single-character replace). -/
def replaceBackslashes (s : String) : String :=
  String.mk (s.data.map (fun c => if c = '\\' then '/' else c))

/-- The quote/whitespace stripping `_normalize_import_path` applies
first (`import_path.strip('"\x27').strip()`). -/
def strippedImport (import_path : String) : String :=
  StrUtil.pyStripChars (StrUtil.pyStripChars import_path quoteChars) StrUtil.wsChars

/-- `_normalize_import_path(import_path, language)`. -/
def normalize_import_path (import_path : String) (language : String) : String :=
  let p := strippedImport import_path
  if language = "python" then
    StrUtil.firstSegment (pyLStrip p ['.']) '.'
  else if language = "javascript" ∨ language = "typescript" then
    if StrUtil.pyStartsWith p "./" || StrUtil.pyStartsWith p "../" then replaceBackslashes p
    else StrUtil.firstSegment p '/'
  else if language = "go" then
    (StrUtil.pySplitOn p '/').getLastD p
  else p

/-- `_is_external_package(import_path, language)`. -/
def is_external_package (import_path : String) (language : String) : Bool :=
  if language = "python" then
    decide (StrUtil.firstSegment import_path '.' ∈ PYTHON_STDLIB)
  else if language = "javascript" ∨ language = "typescript" then
    if !(StrUtil.pyStartsWith import_path "./" || StrUtil.pyStartsWith import_path "../" ||
         StrUtil.pyStartsWith import_path "@/") then
      decide (StrUtil.firstSegment import_path '/' ∈ NODE_EXTERNAL_PACKAGES)
    else false
  else if language = "go" then
    decide (import_path ∈ GO_STDLIB)
  else false

/-- Path join, `dir / rel` rendered as a string. -/
def joinPath (dir rel : String) : String := StrUtil.strConcat [dir, "/", rel]

/-- The stem of a file name (`pathlib` semantics: text before the last
`.`, where a lone leading dot marks a hidden file without a suffix). -/
def pyStem (name : String) : String :=
  let segs := StrUtil.pySplitOn name '.'
  match segs with
  | [] => name
  | [_] => name
  | _ =>
    if StrUtil.pyStartsWith name "." ∧ segs.length = 2 then name
    else StrUtil.joinWith "." segs.dropLast

/-- `Path.with_suffix(suffix)` on a string-rendered path. -/
def pyWithSuffix (p suffix : String) : String :=
  let segs := StrUtil.pySplitOn p '/'
  let name := segs.getLastD ""
  StrUtil.joinWith "/" (segs.dropLast ++ [StrUtil.strConcat [pyStem name, suffix]])

/-- Probe `resolved.with_suffix(ext)` against the filesystem for each
extension in order. -/
def probeExts (fs : String → Bool) (resolved : String) : List String → Option String
  | [] => none
  | ext :: rest =>
    if fs (pyWithSuffix resolved ext) then some (pyWithSuffix resolved ext)
    else probeExts fs resolved rest

/-- `_js_import_to_path(import_path, importing_file)` (with
`importing_dir = importing_file.parent`). -/
def js_import_to_path (fs : String → Bool) (import_path importing_dir project_root : String) :
    Option String :=
  if StrUtil.pyStartsWith import_path "./" || StrUtil.pyStartsWith import_path "../" then
    let resolved := joinPath importing_dir import_path
    match probeExts fs resolved [".js", ".jsx", ".ts", ".tsx", ".mjs", ".cjs"] with
    | some q => some q
    | none =>
      if fs (joinPath resolved "index.js") then some (joinPath resolved "index.js")
      else if fs (joinPath resolved "index.ts") then some (joinPath resolved "index.ts")
      else some resolved
  else if StrUtil.pyStartsWith import_path "@/" then
    let stripped := String.mk (import_path.data.drop 2)
    let resolved := joinPath project_root stripped
    match probeExts fs resolved [".js", ".jsx", ".ts", ".tsx"] with
    | some q => some q
    | none => some resolved
  else none

/-- `import_path.replace('.', '/')`. -/
def dotsToSlashes (s : String) : String :=
  String.mk (s.data.map (fun c => if c = '.' then '/' else c))

/-- `_python_import_to_path(import_path, importing_file)`. -/
def python_import_to_path (fs : String → Bool)
    (import_path importing_dir project_root : String) : Option String :=
  let module_path := dotsToSlashes import_path
  let possible := [joinPath module_path "__init__.py", pyWithSuffix module_path ".py"]
  match possible.find? (fun path => fs (joinPath importing_dir path)) with
  | some path => some path
  | none => possible.find? (fun path => fs (joinPath project_root path))

/-- `_go_import_to_path(import_path, importing_file)`. -/
def go_import_to_path (fs : String → Bool)
    (import_path importing_dir project_root : String) : Option String :=
  let go_path := joinPath (dotsToSlashes import_path) (StrUtil.strConcat [import_path, ".go"])
  if fs (joinPath importing_dir go_path) then some go_path
  else if fs (joinPath project_root go_path) then some go_path
  else none

/-- `_import_to_fs_path(import_path, importing_file, language)`. -/
def import_to_fs_path (fs : String → Bool)
    (import_path importing_dir project_root language : String) : Option String :=
  if language = "python" then python_import_to_path fs import_path importing_dir project_root
  else if language = "javascript" ∨ language = "typescript" then
    js_import_to_path fs import_path importing_dir project_root
  else if language = "go" then go_import_to_path fs import_path importing_dir project_root
  else none

/-- `resolve(import_path, importing_file, language)`.  `absResolve`
models `_resolve_absolute_path` (`none` for its `None`, whose Python
rendering `str(None) = "None"` lands in `file_path`); `fs` models
`Path.exists`; `lookup` models `_lookup_artifact_id`. -/
def resolve (fs : String → Bool) (lookup : String → Option String)
    (absResolve : String → Option String) (project_root importing_dir : String)
    (import_path language : String) : ResolutionResult :=
  let normalized := normalize_import_path import_path language
  if is_external_package normalized language then
    { artifact_id := none, file_path := none, is_external := true }
  else
    match import_to_fs_path fs normalized importing_dir project_root language with
    | none => { artifact_id := none, file_path := none, is_external := false }
    | some fs_path =>
      match absResolve fs_path with
      | none => { artifact_id := none, file_path := some "None", is_external := false }
      | some absolute_path =>
        if fs absolute_path = false then
          { artifact_id := none, file_path := some absolute_path, is_external := false }
        else
          { artifact_id := lookup absolute_path, file_path := some absolute_path
            is_external := false }

end Resolver

/-! ## Ingest pipeline (`palace/ingest/pipeline.py`)

`BigBangPipeline.ingest_file(file_path)` reads the file, finds a parser in
the registry, parses dependencies/symbols/fingerprint, writes the artifact
node to the graph (`hippocampus.create_node`), optionally extracts
concepts (the CLI and every in-repo caller construct the pipeline with
`concept_extractor=None`, so that branch is modelled as skipped), detects
invariant violations and writes invariant nodes and `CONSTRAINS` edges.

`BigBangPipeline` holds only `hippocampus`, `concept_extractor`,
`invariant_detector` and the parser registry: it neither receives nor
updates any `CompressedBloomFilter`, so the graph is the entire state
`ingest_file` can touch.  The parser found by the registry is the oracle
`parserOpt` (`none` models "no parser for extension"), the invariant
detector is the oracle `detect`, `hashlib.md5` (used only to derive
invariant node ids) is the oracle `md5`, and the registry's language
detection supplies `language`. -/

namespace Pipeline

/-- The parser interface the pipeline calls
(`parse_dependencies(file_path, content)`, `extract_symbols(content)`,
`compute_fingerprint(content)`). -/
structure ParserOracle where
  parse_dependencies : String → String → List String
  extract_symbols : String → List String
  compute_fingerprint : String → String

/-- Properties of the artifact node written by `ingest_file`. -/
structure ArtifactProps where
  id : String
  path : String
  content_hash : String
  language : String
  ast_fingerprint : String
deriving DecidableEq

/-- An invariant violation reported by the detector. -/
structure InvariantViolation where
  rule : String
  severity : String
deriving DecidableEq

/-- A node written to the graph store. -/
inductive GraphNode where
  | artifact (props : ArtifactProps)
  | invariant (id rule severity : String)
deriving DecidableEq

/-- An edge written to the graph store. -/
structure GraphEdge where
  src : String
  dst : String
  edge_type : String
deriving DecidableEq

/-- The graph-store state `ingest_file` writes to. -/
structure GraphState where
  nodes : List GraphNode
  edges : List GraphEdge
deriving DecidableEq

/-- The dict returned by `ingest_file`. -/
inductive IngestReport where
  | skipped (reason : String)
  | success (dependencies symbols violations : Nat)
deriving DecidableEq

/-- `BigBangPipeline.ingest_file(file_path)` on file content `content`.
Returns the updated graph state and the report.  Note the signature: no
Bloom filter goes in or out. -/
def ingest_file (md5 : String → String) (parserOpt : Option ParserOracle)
    (detect : String → List String → List String → List InvariantViolation)
    (language file_path content : String) (g : GraphState) : GraphState × IngestReport :=
  match parserOpt with
  | none => (g, IngestReport.skipped "No parser for extension")
  | some parser =>
    let dependencies := parser.parse_dependencies file_path content
    let symbols := parser.extract_symbols content
    let fingerprint := parser.compute_fingerprint content
    let content_hash := SHA256.sha256hex content
    let artifact_id := StrUtil.strConcat ["artifact-", String.mk (content_hash.data.take 16)]
    let g1 : GraphState :=
      { g with
        nodes := g.nodes ++
          [GraphNode.artifact
            { id := artifact_id, path := file_path, content_hash := content_hash
              language := language, ast_fingerprint := fingerprint }] }
    let violations := detect file_path dependencies symbols
    let g2 := violations.foldl
      (fun gs v =>
        let invariant_id := StrUtil.strConcat ["invariant-", md5 v.rule]
        { gs with
          nodes := gs.nodes ++ [GraphNode.invariant invariant_id v.rule v.severity]
          edges := gs.edges ++ [{ src := invariant_id, dst := artifact_id
                                  edge_type := "CONSTRAINS" }] })
      g1
    (g2, IngestReport.success dependencies.length symbols.length violations.length)

end Pipeline

/-! ## Helper lemmas -/

/-- FIPS 180-4 test vector: SHA-256 of the empty message. -/
theorem sha256hex_empty_vector :
    SHA256.sha256hex "" =
      "e3b0c44298fc1c149afbf4c8996fb92427ae41e4649b934ca495991b7852b855" := by
  decide

/-- FIPS 180-4 test vector: SHA-256 of `"abc"`. -/
theorem sha256hex_abc_vector :
    SHA256.sha256hex "abc" =
      "ba7816bf8f01cfea414140de5dae2223b00361a396177a9cb410ff61f20015ad" := by
  decide

namespace StrUtil

theorem lexLe_total (a b : List Char) : lexLe a b = true ∨ lexLe b a = true := by
  induction a generalizing b with
  | nil => left; rfl
  | cons x xs ih =>
    cases b with
    | nil => right; rfl
    | cons y ys =>
      by_cases hxy : x < y
      · left; simp [lexLe, hxy]
      · by_cases hyx : y < x
        · right; simp [lexLe, hyx]
        · rcases ih ys with h | h
          · left; simp [lexLe, hxy, hyx, h]
          · right; simp [lexLe, hxy, hyx, h]

theorem lexLe_trans (a b c : List Char) (hab : lexLe a b = true) (hbc : lexLe b c = true) :
    lexLe a c = true := by
  induction a generalizing b c with
  | nil => rfl
  | cons x xs ih =>
    cases b with
    | nil => simp [lexLe] at hab
    | cons y ys =>
      cases c with
      | nil => simp [lexLe] at hbc
      | cons z zs =>
        simp only [lexLe] at hab hbc ⊢
        by_cases hxy : x < y
        · by_cases hyz : y < z
          · simp [lt_trans hxy hyz]
          · by_cases hzy : z < y
            · simp [lexLe, hyz, hzy] at hbc
            · have : y = z := le_antisymm (not_lt.mp hzy) (not_lt.mp hyz)
              subst this
              simp [hxy]
        · by_cases hyx : y < x
          · simp [lexLe, hxy, hyx] at hab
          · have hxyeq : x = y := le_antisymm (not_lt.mp hyx) (not_lt.mp hxy)
            subst hxyeq
            simp only [lt_self_iff_false, if_false] at hab
            by_cases hyz : x < z
            · simp [hyz]
            · by_cases hzy : z < x
              · simp [lexLe, hyz, hzy] at hbc
              · have : x = z := le_antisymm (not_lt.mp hzy) (not_lt.mp hyz)
                subst this
                simp only [lt_self_iff_false, if_false] at hbc ⊢
                exact ih _ _ hab hbc

theorem lexLe_antisymm (a b : List Char) (hab : lexLe a b = true) (hba : lexLe b a = true) :
    a = b := by
  induction a generalizing b with
  | nil =>
    cases b with
    | nil => rfl
    | cons y ys => simp [lexLe] at hba
  | cons x xs ih =>
    cases b with
    | nil => simp [lexLe] at hab
    | cons y ys =>
      simp only [lexLe] at hab hba
      by_cases hxy : x < y
      · simp [lexLe, lt_asymm hxy, hxy] at hba
      · by_cases hyx : y < x
        · simp [lexLe, hxy, hyx] at hab
        · have hxyeq : x = y := le_antisymm (not_lt.mp hyx) (not_lt.mp hxy)
          subst hxyeq
          simp only [lt_self_iff_false, if_false] at hab hba
          rw [ih ys hab hba]

instance : IsTotal String (fun a b => strLe a b = true) :=
  ⟨fun a b => lexLe_total a.data b.data⟩

instance : IsTrans String (fun a b => strLe a b = true) :=
  ⟨fun a b c => lexLe_trans a.data b.data c.data⟩

instance : IsAntisymm String (fun a b => strLe a b = true) :=
  ⟨fun a b hab hba => by
    cases a with
    | mk da =>
      cases b with
      | mk db => exact congrArg String.mk (lexLe_antisymm da db hab hba)⟩

/-- Two lists of strings that are permutations of each other sort to the
same list: the sorted order is unique because `strLe` is a total
antisymmetric order. -/
theorem pySortStrings_eq_of_perm {l₁ l₂ : List String} (h : l₁.Perm l₂) :
    pySortStrings l₁ = pySortStrings l₂ :=
  List.eq_of_perm_of_sorted
    ((List.perm_insertionSort _ _).trans (h.trans (List.perm_insertionSort _ _).symm))
    (List.sorted_insertionSort _ _) (List.sorted_insertionSort _ _)

end StrUtil

namespace Fingerprint

/-- Plain unfolding of `hashNode` (the `attach` used for termination
eliminated). -/
theorem hashNode_eq (t : String) (b : Bool) (cs : List TSNode) :
    hashNode (.mk t b cs) =
      (let child_hashes := (cs.filter (fun c => c.is_named)).map hashNode
       if child_hashes.isEmpty then SHA256.sha256hex t
       else
         SHA256.sha256hex
           (StrUtil.strConcat
             [t, ":", StrUtil.commaJoin (StrUtil.pySortStrings child_hashes)])) := by
  rw [hashNode]
  simp only [List.attach_map_val]

end Fingerprint

namespace Fingerprint

/-- A node with no named children hashes to the SHA-256 of its type
string alone. -/
theorem hashNode_leaf (t : String) (b : Bool) :
    hashNode (.mk t b []) = SHA256.sha256hex t := by
  rw [hashNode_eq]
  rfl

end Fingerprint

/-! ## Claim theorems -/

/-- C2: for every tree node, permuting the order of its named children
(each subtree is itself a node, so this applies recursively to any
subtree) does not change the value of `hash_ast_structure`. -/
theorem C2_fingerprint_order_invariant
    (t : String) (b : Bool) (cs₁ cs₂ : List Fingerprint.TSNode)
    (h : (cs₁.filter (fun c => c.is_named)).Perm (cs₂.filter (fun c => c.is_named))) :
    Fingerprint.hash_ast_structure (some (.mk t b cs₁)) =
      Fingerprint.hash_ast_structure (some (.mk t b cs₂)) := by
  show Fingerprint.hashNode _ = Fingerprint.hashNode _
  rw [Fingerprint.hashNode_eq, Fingerprint.hashNode_eq]
  have hm := h.map Fingerprint.hashNode
  have hsort := StrUtil.pySortStrings_eq_of_perm hm
  by_cases he : (cs₁.filter (fun c => c.is_named)).map Fingerprint.hashNode = []
  · have he2 : (cs₂.filter (fun c => c.is_named)).map Fingerprint.hashNode = [] :=
      ((he ▸ hm).symm).eq_nil
    simp [he, he2]
  · have he2 : ¬(cs₂.filter (fun c => c.is_named)).map Fingerprint.hashNode = [] :=
      fun h2 => he ((h2 ▸ hm).eq_nil)
    simp [List.isEmpty_iff, he, he2, hsort]

/-- C2 witness: two module trees that differ only in the order of their
top-level declarations share a fingerprint. -/
theorem C2_fingerprint_order_invariant_witness :
    (([Fingerprint.TSNode.mk "def_x" true [], Fingerprint.TSNode.mk "def_y" true []].filter
        (fun c => c.is_named)).Perm
      ([Fingerprint.TSNode.mk "def_y" true [], Fingerprint.TSNode.mk "def_x" true []].filter
        (fun c => c.is_named))) ∧
    Fingerprint.hash_ast_structure
        (some (.mk "module" true
          [Fingerprint.TSNode.mk "def_x" true [], Fingerprint.TSNode.mk "def_y" true []])) =
      Fingerprint.hash_ast_structure
        (some (.mk "module" true
          [Fingerprint.TSNode.mk "def_y" true [], Fingerprint.TSNode.mk "def_x" true []])) :=
  ⟨List.Perm.swap (Fingerprint.TSNode.mk "def_y" true [])
      (Fingerprint.TSNode.mk "def_x" true []) [],
   C2_fingerprint_order_invariant "module" true _ _
     (List.Perm.swap (Fingerprint.TSNode.mk "def_y" true [])
       (Fingerprint.TSNode.mk "def_x" true []) [])⟩

/-- C10: `hash_ast_structure` called with a null node (or any value
without a `type` attribute, both modelled by `none`) returns the SHA-256
hex digest of the empty byte string — a 64-character lowercase-hex
string — instead of raising. -/
theorem C10_hash_ast_structure_null_fallback :
    Fingerprint.hash_ast_structure none =
        "e3b0c44298fc1c149afbf4c8996fb92427ae41e4649b934ca495991b7852b855" ∧
      (Fingerprint.hash_ast_structure none).length = 64 ∧
      (Fingerprint.hash_ast_structure none).data.all
        (fun c => c ∈ ("0123456789abcdef").data) = true := by
  refine ⟨by decide, by decide, by decide⟩

/-- C4 counterexample: tree-sitter accepts a zero-byte Python file and
returns a tree whose root is a childless `module` node; on that input
`hash_file_ast` returns `SHA-256("module")`, which is *not* the SHA-256
of the empty string. -/
theorem C4_counterexample_empty_file :
    Fingerprint.hash_file_ast ""
        (some (fun _ => some (.mk "module" true []))) ≠ SHA256.sha256hex "" := by
  show Fingerprint.hashNode (.mk "module" true []) ≠ _
  rw [Fingerprint.hashNode_leaf]
  decide

/-- C4 amended: for a zero-byte input that the parser accepts with a
childless root node of type `t`, the fingerprint is `SHA-256(t)` (the
SHA-256 of the empty tree-root string, e.g. `SHA-256("module")` for
Python); it equals `SHA-256("")` exactly in the fallback cases — no
parser available, or the parser yields no tree for the empty input. -/
theorem C4_amended_empty_file_fingerprint :
    (∀ (t : String) (b : Bool),
      Fingerprint.hash_file_ast "" (some (fun _ => some (.mk t b []))) =
        SHA256.sha256hex t) ∧
    Fingerprint.hash_file_ast "" none = SHA256.sha256hex "" ∧
    (∀ parse : String → Option Fingerprint.TSNode, parse "" = none →
      Fingerprint.hash_file_ast "" (some parse) = SHA256.sha256hex "") :=
  ⟨fun t b => Fingerprint.hashNode_leaf t b, rfl,
   fun parse h => by simp [Fingerprint.hash_file_ast, h]⟩

/-- C4 witness: the amended claim applied to a parser that yields no tree
for the empty input. -/
theorem C4_amended_empty_file_fingerprint_witness :
    ((fun _ : String => (none : Option Fingerprint.TSNode)) "" = none) ∧
    Fingerprint.hash_file_ast "" (some (fun _ => (none : Option Fingerprint.TSNode))) =
      SHA256.sha256hex "" :=
  ⟨rfl, C4_amended_empty_file_fingerprint.2.2 _ rfl⟩

namespace Bloom

/-- The bit test of `getBit` is `Nat.testBit` of the addressed byte. -/
theorem getBit_eq_testBit (arr : List Nat) (pos : Nat) :
    getBit arr pos = (arr.getD (pos / 8) 0).testBit (pos % 8) := by
  unfold getBit
  rw [Nat.shiftLeft_eq, one_mul, Nat.and_two_pow]
  have h2 : (2 : Nat) ^ (pos % 8) ≠ 0 :=
    Nat.pos_iff_ne_zero.mp (pow_pos (by norm_num) _)
  cases h : (arr.getD (pos / 8) 0).testBit (pos % 8) <;> simp [h, h2]

theorem length_setBit (arr : List Nat) (pos : Nat) : (setBit arr pos).length = arr.length := by
  simp [setBit]

theorem length_foldl_setBit (poss : List Nat) (arr : List Nat) :
    (poss.foldl setBit arr).length = arr.length := by
  induction poss generalizing arr with
  | nil => rfl
  | cons p ps ih => rw [List.foldl_cons, ih, length_setBit]

/-- `setBit` never clears a bit. -/
theorem getBit_setBit_of_getBit (arr : List Nat) (p q : Nat) (h : getBit arr p = true) :
    getBit (setBit arr q) p = true := by
  rw [getBit_eq_testBit] at h ⊢
  by_cases hidx : q / 8 = p / 8
  · by_cases hlt : q / 8 < arr.length
    · have hbyte : (setBit arr q).getD (p / 8) 0 =
          arr.getD (p / 8) 0 ||| (1 <<< (q % 8)) := by
        rw [← hidx]
        simp [setBit, List.getD_eq_getElem?_getD, List.getElem?_set_self hlt]
      rw [hbyte, Nat.testBit_lor, h, Bool.true_or]
    · rw [setBit, List.set_eq_of_length_le (Nat.le_of_not_lt hlt)]
      exact h
  · have hbyte : (setBit arr q).getD (p / 8) 0 = arr.getD (p / 8) 0 := by
      simp [setBit, List.getD_eq_getElem?_getD, List.getElem?_set_ne hidx]
    rw [hbyte]
    exact h

/-- `setBit` sets the addressed bit (when the byte is in range). -/
theorem getBit_setBit_self (arr : List Nat) (p : Nat) (h : p / 8 < arr.length) :
    getBit (setBit arr p) p = true := by
  rw [getBit_eq_testBit]
  have hbyte : (setBit arr p).getD (p / 8) 0 = arr.getD (p / 8) 0 ||| (1 <<< (p % 8)) := by
    simp [setBit, List.getD_eq_getElem?_getD, List.getElem?_set_self h]
  rw [hbyte, Nat.testBit_lor, Nat.shiftLeft_eq, one_mul, Nat.testBit_two_pow_self,
    Bool.or_true]

/-- Bits survive any sequence of `setBit`s. -/
theorem getBit_foldl_setBit_of_getBit (poss : List Nat) (arr : List Nat) (p : Nat)
    (h : getBit arr p = true) : getBit (poss.foldl setBit arr) p = true := by
  induction poss generalizing arr with
  | nil => exact h
  | cons q qs ih => exact ih _ (getBit_setBit_of_getBit _ _ _ h)

/-- Every listed position ends up set (when its byte is in range). -/
theorem getBit_foldl_setBit_of_mem (poss : List Nat) (arr : List Nat) (p : Nat)
    (hp : p ∈ poss) (hlen : p / 8 < arr.length) :
    getBit (poss.foldl setBit arr) p = true := by
  induction poss generalizing arr with
  | nil => cases hp
  | cons q qs ih =>
    rw [List.foldl_cons]
    rcases List.mem_cons.mp hp with rfl | hmem
    · exact getBit_foldl_setBit_of_getBit _ _ _ (getBit_setBit_self _ _ hlen)
    · exact ih (setBit arr q) hmem (by rw [length_setBit]; exact hlen)

theorem add_size_bits (mmh3 : String → Nat → Nat) (bf : CompressedBloomFilter) (y : String) :
    (add mmh3 bf y).size_bits = bf.size_bits := rfl

theorem add_hash_seeds (mmh3 : String → Nat → Nat) (bf : CompressedBloomFilter) (y : String) :
    (add mmh3 bf y).hash_seeds = bf.hash_seeds := rfl

theorem add_bit_array_length (mmh3 : String → Nat → Nat) (bf : CompressedBloomFilter)
    (y : String) : (add mmh3 bf y).bit_array.length = bf.bit_array.length :=
  length_foldl_setBit _ _

/-- After `add x`, every bit position of `x` is set. -/
theorem contains_add_self (mmh3 : String → Nat → Nat) (bf : CompressedBloomFilter)
    (x : String) (h0 : 0 < bf.size_bits)
    (hlen : bf.size_bits ≤ 8 * bf.bit_array.length) :
    contains mmh3 (add mmh3 bf x) x = true := by
  simp only [contains, List.all_eq_true]
  intro pos hpos
  have hpos' : pos ∈ hashesOf mmh3 bf x := hpos
  have hlt : pos < bf.size_bits := by
    rcases List.mem_map.mp hpos' with ⟨seed, _, rfl⟩
    exact Nat.mod_lt _ h0
  exact getBit_foldl_setBit_of_mem _ _ _ hpos'
    ((Nat.div_lt_iff_lt_mul (by norm_num)).mpr
      (lt_of_lt_of_le hlt (by omega)))

/-- `add y` never makes `contains x` flip from true to false. -/
theorem contains_mono_add (mmh3 : String → Nat → Nat) (bf : CompressedBloomFilter)
    (x y : String) (h : contains mmh3 bf x = true) :
    contains mmh3 (add mmh3 bf y) x = true := by
  simp only [contains, List.all_eq_true] at h ⊢
  intro pos hpos
  exact getBit_foldl_setBit_of_getBit _ _ _ (h pos hpos)

/-- `contains x` survives any further batch of adds. -/
theorem contains_mono_add_batch (mmh3 : String → Nat → Nat) (bf : CompressedBloomFilter)
    (x : String) (ys : List String) (h : contains mmh3 bf x = true) :
    contains mmh3 (add_batch mmh3 bf ys) x = true := by
  induction ys generalizing bf with
  | nil => exact h
  | cons y ys ih => exact ih _ (contains_mono_add _ _ _ _ h)

end Bloom

/-- C3: the Bloom filter has zero false negatives.  After `add x`,
`contains x` is true and stays true after any further sequence of adds
(bits are only ever set, never cleared).  The two hypotheses are the
invariants `__init__` establishes: a positive bit count and a byte array
covering it (`size_bytes = (size_bits + 7) // 8`). -/
theorem C3_bloom_zero_false_negatives (mmh3 : String → Nat → Nat)
    (bf : Bloom.CompressedBloomFilter) (x : String) (ys : List String)
    (h0 : 0 < bf.size_bits) (hlen : bf.size_bits ≤ 8 * bf.bit_array.length) :
    Bloom.contains mmh3 (Bloom.add_batch mmh3 (Bloom.add mmh3 bf x) ys) x = true :=
  Bloom.contains_mono_add_batch mmh3 _ x ys
    (Bloom.contains_add_self mmh3 bf x h0 hlen)

/-- C3 witness: a concrete two-seed filter, one added id, two later adds. -/
theorem C3_bloom_zero_false_negatives_witness :
    0 < (Bloom.CompressedBloomFilter.mk 100 16 2 [0, 5] [0, 0] []).size_bits ∧
    (Bloom.CompressedBloomFilter.mk 100 16 2 [0, 5] [0, 0] []).size_bits ≤
      8 * (Bloom.CompressedBloomFilter.mk 100 16 2 [0, 5] [0, 0] []).bit_array.length ∧
    Bloom.contains (fun s seed => s.length * 131 + seed)
      (Bloom.add_batch (fun s seed => s.length * 131 + seed)
        (Bloom.add (fun s seed => s.length * 131 + seed)
          (Bloom.CompressedBloomFilter.mk 100 16 2 [0, 5] [0, 0] []) "artifact-1")
        ["artifact-2", "artifact-3"]) "artifact-1" = true :=
  ⟨by decide, by decide,
   C3_bloom_zero_false_negatives (fun s seed => s.length * 131 + seed)
     (Bloom.CompressedBloomFilter.mk 100 16 2 [0, 5] [0, 0] []) "artifact-1"
     ["artifact-2", "artifact-3"] (by decide) (by decide)⟩

/-- C7 counterexample: two filters that agree on `size_bits` and
`num_hashes` but differ in their seed lists are *not* rejected — both
`union` and `intersection` return a result filter. -/
theorem C7_counterexample_seeds_not_checked :
    (Bloom.CompressedBloomFilter.mk 10 8 2 [1, 2] [0] []).hash_seeds ≠
        (Bloom.CompressedBloomFilter.mk 10 8 2 [3, 4] [0] []).hash_seeds ∧
    (Bloom.CompressedBloomFilter.mk 10 8 2 [1, 2] [0] []).size_bits =
        (Bloom.CompressedBloomFilter.mk 10 8 2 [3, 4] [0] []).size_bits ∧
    (Bloom.CompressedBloomFilter.mk 10 8 2 [1, 2] [0] []).num_hashes =
        (Bloom.CompressedBloomFilter.mk 10 8 2 [3, 4] [0] []).num_hashes ∧
    Bloom.exceptOk
        (Bloom.union (Bloom.CompressedBloomFilter.mk 10 8 2 [1, 2] [0] [])
          (Bloom.CompressedBloomFilter.mk 10 8 2 [3, 4] [0] [])) = true ∧
    Bloom.exceptOk
        (Bloom.intersection (Bloom.CompressedBloomFilter.mk 10 8 2 [1, 2] [0] [])
          (Bloom.CompressedBloomFilter.mk 10 8 2 [3, 4] [0] [])) = true := by
  refine ⟨by decide, rfl, rfl, by decide, by decide⟩

/-- C7 amended: `union` and `intersection` reject exactly when the two
filters differ in bit count or hash count; the hash seeds are not part of
the comparison. -/
theorem C7_amended_config_check (a b : Bloom.CompressedBloomFilter) :
    (Bloom.exceptOk (Bloom.union a b) = false ↔
      (a.size_bits ≠ b.size_bits ∨ a.num_hashes ≠ b.num_hashes)) ∧
    (Bloom.exceptOk (Bloom.intersection a b) = false ↔
      (a.size_bits ≠ b.size_bits ∨ a.num_hashes ≠ b.num_hashes)) := by
  constructor <;>
  · by_cases h : a.size_bits ≠ b.size_bits ∨ a.num_hashes ≠ b.num_hashes
    · simp [Bloom.union, Bloom.intersection, Bloom.exceptOk, h]
    · simp [Bloom.union, Bloom.intersection, Bloom.exceptOk, h]

/-- C8 amended: on a Bloom miss, `query_artifact` returns (does not
raise) a `QueryResult` with `bloom_hit = false`, `files_parsed = 0`,
`dependencies_found = 0`, and the one-line bundle
`"# Artifact not found: <id>"` (not an empty bundle). -/
theorem C8_amended_bloom_miss (mmh3 : String → Nat → Nat)
    (bf : Bloom.CompressedBloomFilter) (get_node : String → Option Agent.ArtifactNode)
    (get_deps : String → Nat → List String) (artifact_id : String)
    (include_dependencies : Bool) (max_depth : Nat)
    (h : Bloom.contains mmh3 bf artifact_id = false) :
    Agent.query_artifact mmh3 bf get_node get_deps artifact_id include_dependencies
        max_depth =
      Except.ok
        { toon_format := StrUtil.strConcat ["# Artifact not found: ", artifact_id]
          files_parsed := 0
          tokens_estimated := 0
          bloom_hit := false
          dependencies_found := 0 } := by
  simp [Agent.query_artifact, h]

/-- C8 counterexample: the bundle returned on a Bloom miss is the
informative line `"# Artifact not found: <id>"`, not the empty string the
claim asserts. -/
theorem C8_counterexample_bundle_not_empty :
    Bloom.contains (fun _ _ => 0) (Bloom.CompressedBloomFilter.mk 10 8 1 [7] [0] [])
        "artifact-x" = false ∧
    Agent.query_artifact (fun _ _ => 0) (Bloom.CompressedBloomFilter.mk 10 8 1 [7] [0] [])
        (fun _ => none) (fun _ _ => []) "artifact-x" true 2 =
      Except.ok
        { toon_format := "# Artifact not found: artifact-x"
          files_parsed := 0
          tokens_estimated := 0
          bloom_hit := false
          dependencies_found := 0 } ∧
    ("# Artifact not found: artifact-x" : String) ≠ "" := by
  refine ⟨by decide, by decide, by decide⟩

/-- C8 witness: the amended claim applied at a concrete empty filter. -/
theorem C8_amended_bloom_miss_witness :
    Bloom.contains (fun _ _ => 1) (Bloom.CompressedBloomFilter.mk 10 8 1 [7] [0] [])
        "artifact-y" = false ∧
    Agent.query_artifact (fun _ _ => 1) (Bloom.CompressedBloomFilter.mk 10 8 1 [7] [0] [])
        (fun _ => none) (fun _ _ => []) "artifact-y" false 1 =
      Except.ok
        { toon_format := StrUtil.strConcat ["# Artifact not found: ", "artifact-y"]
          files_parsed := 0
          tokens_estimated := 0
          bloom_hit := false
          dependencies_found := 0 } :=
  ⟨by decide,
   C8_amended_bloom_miss (fun _ _ => 1) (Bloom.CompressedBloomFilter.mk 10 8 1 [7] [0] [])
     (fun _ => none) (fun _ _ => []) "artifact-y" false 1 (by decide)⟩

namespace Toon

theorem emitOk_iff {a : Type} (e : Except String a) : emitOk e = true ↔ ∃ x, e = .ok x := by
  cases e <;> simp [emitOk]

theorem mapM_emitOk {a b : Type} (f : a → Except String b) (l : List a)
    (h : ∀ x ∈ l, emitOk (f x) = true) : emitOk (l.mapM f) = true := by
  induction l with
  | nil => rfl
  | cons x xs ih =>
    rw [List.mapM_cons]
    obtain ⟨y, hy⟩ := (emitOk_iff _).mp (h x (List.mem_cons_self x xs))
    obtain ⟨ys, hys⟩ := (emitOk_iff _).mp (ih (fun z hz => h z (List.mem_cons_of_mem _ hz)))
    have hys2 : List.mapM.loop f xs [] = Except.ok ys := hys
    simp [hy, hys, hys2, emitOk, Bind.bind, Except.bind, Pure.pure, Except.pure]

theorem functionLines_ok (f : FunctionEntry) (h : f.name.isSome = true) :
    emitOk (functionLines f) = true := by
  obtain ⟨n, hn⟩ := Option.isSome_iff_exists.mp h
  cases hc : f.calls with
  | none => simp [functionLines, hn, hc, emitOk]
  | some l => cases l <;> simp [functionLines, hn, hc, emitOk]

theorem methodLine_ok (m : MethodEntry) (h : m.name.isSome = true) :
    emitOk (methodLine m) = true := by
  obtain ⟨n, hn⟩ := Option.isSome_iff_exists.mp h
  simp [methodLine, hn, emitOk]

theorem classLines_ok (c : ClassEntry) (h1 : c.name.isSome = true)
    (h2 : (match c.methods with
           | some ms => ms.all (fun m => m.name.isSome)
           | none => true) = true) :
    emitOk (classLines c) = true := by
  obtain ⟨n, hn⟩ := Option.isSome_iff_exists.mp h1
  cases hm : c.methods with
  | none => simp [classLines, hn, hm, emitOk]
  | some ms =>
    cases ms with
    | nil => simp [classLines, hn, hm, emitOk]
    | cons m rest =>
      rw [hm] at h2
      simp only [List.all_eq_true] at h2
      have hok := mapM_emitOk methodLine (m :: rest) (fun x hx => methodLine_ok x (h2 x hx))
      obtain ⟨ys, hys⟩ := (emitOk_iff _).mp hok
      have hys2 : List.mapM.loop methodLine (m :: rest) [] = Except.ok ys := hys
      simp [classLines, hn, hm, hys, hys2, emitOk, Bind.bind, Except.bind, Pure.pure,
        Except.pure]

/-- `to_toon` succeeds whenever every `name` key it indexes is present. -/
theorem to_toon_ok_of_namesPresent (s : ASTSummary) (h : namesPresent s = true) :
    emitOk (to_toon s) = true := by
  unfold namesPresent at h
  rw [Bool.and_eq_true] at h
  obtain ⟨hf, hc⟩ := h
  rw [List.all_eq_true] at hf hc
  have hfm : emitOk (s.functions.mapM functionLines) = true :=
    mapM_emitOk _ _ (fun f hfx => functionLines_ok f (hf f hfx))
  have hcm : emitOk (s.classes.mapM classLines) = true :=
    mapM_emitOk _ _ (fun c hcx => by
      have hcc := hc c hcx
      rw [Bool.and_eq_true] at hcc
      exact classLines_ok c hcc.1 hcc.2)
  obtain ⟨fr, hfr⟩ := (emitOk_iff _).mp hfm
  obtain ⟨cr, hcr⟩ := (emitOk_iff _).mp hcm
  have hfr2 : List.mapM.loop functionLines s.functions [] = Except.ok fr := hfr
  have hcr2 : List.mapM.loop classLines s.classes [] = Except.ok cr := hcr
  by_cases hfe : s.functions.isEmpty <;> by_cases hce : s.classes.isEmpty <;>
    simp [to_toon, hfe, hce, hfr, hcr, hfr2, hcr2, emitOk, Bind.bind, Except.bind, Pure.pure,
      Except.pure]

end Toon

/-- C5 counterexample: `to_toon` is not total — a function entry without
a `name` key raises `KeyError` — and identifiers containing `:` or
newlines are emitted verbatim, with no `?` sentinel anywhere in the
output. -/
theorem C5_counterexample_emission_raises :
    Toon.to_toon
        { file_path := "a.py", language := "python"
          functions := [{ name := none, parameters := none, return_type := none, calls := none }]
          classes := [], imports := [], exports := [] } =
      Except.error "KeyError: 'name'" ∧
    Toon.to_toon
        { file_path := "m.py", language := "py:thon", functions := [], classes := []
          imports := ["a:b\nc"], exports := [] } =
      Except.ok "m.py:\n  language: py:thon\n  imports:\n    - a:b\nc" ∧
    ¬('?' ∈ ("m.py:\n  language: py:thon\n  imports:\n    - a:b\nc").data) := by
  refine ⟨by decide, by decide, by decide⟩

/-- C5 amended: emission succeeds exactly on summaries whose raising
dict reads all find their `name` keys — it raises `KeyError` on entries
missing `name` — and offending identifiers are *not* replaced by `?`:
they are emitted verbatim (demonstrated by the second conjunct, whose
`:`- and newline-carrying identifier appears unchanged in the output). -/
theorem C5_amended_emission :
    (∀ s : Toon.ASTSummary, Toon.namesPresent s = true → Toon.emitOk (Toon.to_toon s) = true) ∧
    Toon.to_toon
        { file_path := "m.py", language := "py:thon", functions := [], classes := []
          imports := ["a:b\nc"], exports := [] } =
      Except.ok "m.py:\n  language: py:thon\n  imports:\n    - a:b\nc" :=
  ⟨Toon.to_toon_ok_of_namesPresent, by decide⟩

/-- C5 witness: the amended claim applied to a well-formed summary. -/
theorem C5_amended_emission_witness :
    Toon.namesPresent
        (Toon.ASTSummary.mk "w.py" "python"
          [Toon.FunctionEntry.mk (some "f") (some ["x"]) (some "int") (some ["g"])]
          [Toon.ClassEntry.mk (some "C")
            (some [Toon.MethodEntry.mk (some "m") none none])]
          ["os"] ["f"]) = true ∧
    Toon.emitOk
        (Toon.to_toon
          (Toon.ASTSummary.mk "w.py" "python"
            [Toon.FunctionEntry.mk (some "f") (some ["x"]) (some "int") (some ["g"])]
            [Toon.ClassEntry.mk (some "C")
              (some [Toon.MethodEntry.mk (some "m") none none])]
            ["os"] ["f"])) = true :=
  ⟨by decide,
   C5_amended_emission.1
     (Toon.ASTSummary.mk "w.py" "python"
       [Toon.FunctionEntry.mk (some "f") (some ["x"]) (some "int") (some ["g"])]
       [Toon.ClassEntry.mk (some "C")
         (some [Toon.MethodEntry.mk (some "m") none none])]
       ["os"] ["f"]) (by decide)⟩

namespace StrUtil

theorem strMkData (s : String) : String.mk s.data = s := by
  cases s
  rfl

theorem splitOnCharAux_ne_nil (sep : Char) (l acc : List Char) :
    splitOnCharAux sep l acc ≠ [] := by
  induction l generalizing acc with
  | nil => simp [splitOnCharAux]
  | cons c rest ih =>
    by_cases h : c = sep <;> simp [splitOnCharAux, h, ih]

theorem splitOnCharAux_no_sep (sep : Char) (l acc : List Char) (hacc : sep ∉ acc) :
    ∀ seg ∈ splitOnCharAux sep l acc, sep ∉ seg := by
  induction l generalizing acc with
  | nil =>
    intro seg hseg
    simp [splitOnCharAux] at hseg
    subst hseg
    simpa using hacc
  | cons c rest ih =>
    intro seg hseg
    by_cases h : c = sep
    · simp [splitOnCharAux, h] at hseg
      rcases hseg with rfl | hseg
      · simpa using hacc
      · exact ih [] (by simp) seg hseg
    · simp [splitOnCharAux, h] at hseg
      exact ih (c :: acc) (by simp [hacc, Ne.symm h]) seg hseg

theorem splitOnCharAux_of_no_sep (sep : Char) (l acc : List Char) (hl : sep ∉ l) :
    splitOnCharAux sep l acc = [acc.reverse ++ l] := by
  induction l generalizing acc with
  | nil => simp [splitOnCharAux]
  | cons c rest ih =>
    have hc : ¬c = sep := fun h => hl (h ▸ List.mem_cons_self c rest)
    have hrest : sep ∉ rest := fun h => hl (List.mem_cons_of_mem _ h)
    simp [splitOnCharAux, hc, ih _ hrest]

theorem firstSegment_no_sep (s : String) (sep : Char) : sep ∉ (firstSegment s sep).data := by
  unfold firstSegment pySplitOn
  rcases he : splitOnCharAux sep s.data [] with _ | ⟨seg, rest⟩
  · exact absurd he (splitOnCharAux_ne_nil sep s.data [])
  · have hmem : seg ∈ splitOnCharAux sep s.data [] := by rw [he]; exact List.mem_cons_self _ _
    have := splitOnCharAux_no_sep sep s.data [] (by simp) seg hmem
    simpa [he] using this

theorem firstSegment_of_no_sep (s : String) (sep : Char) (h : sep ∉ s.data) :
    firstSegment s sep = s := by
  unfold firstSegment pySplitOn
  rw [splitOnCharAux_of_no_sep sep s.data [] h]
  simp [strMkData]

theorem pyStartsWith_false_of_not_mem (s pre : String) (c : Char) (hc : c ∈ pre.data)
    (hs : c ∉ s.data) : pyStartsWith s pre = false := by
  unfold pyStartsWith
  by_contra h
  rw [Bool.not_eq_false, List.isPrefixOf_iff_prefix] at h
  exact hs (h.subset hc)

end StrUtil

/-- C9 counterexample: the bare specifier `leftpad` (no `./`, `../`, or
`@/` prefix, and not in the hardcoded external-package list) resolves to
*unresolved* (`is_external = false`, no artifact id) rather than to
`External`; and the alias import `@/utils` is *not* resolved against the
repository root — normalization truncates it to its first `/`-segment
`"@"` before the alias check, so it also comes back unresolved. -/
theorem C9_counterexample_bare_specifier :
    Resolver.resolve (fun _ => false) (fun _ => none) (fun _ => none) "/repo" "/repo/src"
        "leftpad" "javascript" =
      { artifact_id := none, file_path := none, is_external := false } ∧
    Resolver.resolve (fun _ => false) (fun _ => none) (fun _ => none) "/repo" "/repo/src"
        "@/utils" "javascript" =
      { artifact_id := none, file_path := none, is_external := false } := by
  refine ⟨by decide, by decide⟩

/-- C9 amended: for JS/TS, a specifier that (after quote/whitespace
stripping) does not start with `./` or `../` is truncated by
normalization to its first `/`-segment; `resolve` returns `External`
exactly when that segment is in the hardcoded `NODE_EXTERNAL_PREFIXES`
list, and otherwise returns unresolved (`artifact_id = none`,
`is_external = false`).  In particular `@/`-alias imports are never
resolved against the repository root by `resolve`. -/
theorem C9_amended_bare_specifiers (fs : String → Bool) (lookup : String → Option String)
    (absResolve : String → Option String) (project_root importing_dir : String)
    (s lang : String) (hlang : lang = "javascript" ∨ lang = "typescript")
    (hrel : (StrUtil.pyStartsWith (Resolver.strippedImport s) "./" ||
             StrUtil.pyStartsWith (Resolver.strippedImport s) "../") = false) :
    Resolver.resolve fs lookup absResolve project_root importing_dir s lang =
      { artifact_id := none, file_path := none
        is_external :=
          decide (StrUtil.firstSegment (Resolver.strippedImport s) '/' ∈
            Resolver.NODE_EXTERNAL_PACKAGES) } := by
  have hlangp : ¬(lang = "python") := by rcases hlang with rfl | rfl <;> decide
  have hlangg : ¬(lang = "go") := by rcases hlang with rfl | rfl <;> decide
  have hnorm : Resolver.normalize_import_path s lang =
      StrUtil.firstSegment (Resolver.strippedImport s) '/' := by
    unfold Resolver.normalize_import_path
    rw [if_neg hlangp, if_pos hlang]
    simp [hrel]
  have hnoslash : '/' ∉ (StrUtil.firstSegment (Resolver.strippedImport s) '/').data :=
    StrUtil.firstSegment_no_sep _ '/'
  have h1 : StrUtil.pyStartsWith (StrUtil.firstSegment (Resolver.strippedImport s) '/')
      "./" = false :=
    StrUtil.pyStartsWith_false_of_not_mem _ _ '/' (by decide) hnoslash
  have h2 : StrUtil.pyStartsWith (StrUtil.firstSegment (Resolver.strippedImport s) '/')
      "../" = false :=
    StrUtil.pyStartsWith_false_of_not_mem _ _ '/' (by decide) hnoslash
  have h3 : StrUtil.pyStartsWith (StrUtil.firstSegment (Resolver.strippedImport s) '/')
      "@/" = false :=
    StrUtil.pyStartsWith_false_of_not_mem _ _ '/' (by decide) hnoslash
  have hfs : StrUtil.firstSegment (StrUtil.firstSegment (Resolver.strippedImport s) '/') '/' =
      StrUtil.firstSegment (Resolver.strippedImport s) '/' :=
    StrUtil.firstSegment_of_no_sep _ _ hnoslash
  have hext : Resolver.is_external_package
      (StrUtil.firstSegment (Resolver.strippedImport s) '/') lang =
      decide (StrUtil.firstSegment (Resolver.strippedImport s) '/' ∈
        Resolver.NODE_EXTERNAL_PACKAGES) := by
    unfold Resolver.is_external_package
    rw [if_neg hlangp, if_pos hlang]
    simp [h1, h2, h3, hfs]
  have hpath : Resolver.import_to_fs_path fs
      (StrUtil.firstSegment (Resolver.strippedImport s) '/') importing_dir project_root
      lang = none := by
    unfold Resolver.import_to_fs_path Resolver.js_import_to_path
    rw [if_neg hlangp, if_pos hlang]
    simp [h1, h2, h3]
  unfold Resolver.resolve
  rw [hnorm]
  by_cases hmem : StrUtil.firstSegment (Resolver.strippedImport s) '/' ∈
      Resolver.NODE_EXTERNAL_PACKAGES
  · simp [hext, hmem]
  · simp [hext, hmem, hpath]

/-- C9 witness: the amended claim applied to the bare specifier
`react/jsx-runtime` under the `typescript` tag (first segment `react`,
which is in the external list). -/
theorem C9_amended_bare_specifiers_witness :
    (("typescript" : String) = "javascript" ∨ ("typescript" : String) = "typescript") ∧
    (StrUtil.pyStartsWith (Resolver.strippedImport "react/jsx-runtime") "./" ||
      StrUtil.pyStartsWith (Resolver.strippedImport "react/jsx-runtime") "../") = false ∧
    Resolver.resolve (fun _ => true) (fun _ => some "artifact-1") (fun p => some p) "/repo"
        "/repo/src" "react/jsx-runtime" "typescript" =
      { artifact_id := none, file_path := none
        is_external :=
          decide (StrUtil.firstSegment (Resolver.strippedImport "react/jsx-runtime") '/' ∈
            Resolver.NODE_EXTERNAL_PACKAGES) } :=
  ⟨Or.inr rfl, by decide,
   C9_amended_bare_specifiers (fun _ => true) (fun _ => some "artifact-1") (fun p => some p)
     "/repo" "/repo/src" "react/jsx-runtime" "typescript" (Or.inr rfl) (by decide)⟩

set_option maxRecDepth 8192 in
/-- C1: evaluation at the failing input.  `BigBangPipeline.ingest_file`
writes the artifact node (id `"artifact-" + sha256(content)[0:16]`) into
the graph, but its signature carries no Bloom filter and it never calls
`Bloom.add` — so for a freshly constructed (all-zero) filter, such as the
one the MCP server builds next to the graph, `contains` on the new
artifact id is `false` for *every* hash function, violating the
spec invariant that every artifact id in the graph is in the Bloom
filter. -/
theorem C1_ingest_never_adds_to_bloom :
    ∀ mmh3 : String → Nat → Nat,
      (Pipeline.ingest_file (fun r => r)
          (some (Pipeline.ParserOracle.mk (fun _ _ => []) (fun _ => []) (fun _ => "fp")))
          (fun _ _ _ => []) "python" "a.py" "x = 1"
          (Pipeline.GraphState.mk [] [])).1.nodes =
        [Pipeline.GraphNode.artifact
          (Pipeline.ArtifactProps.mk "artifact-8ff436def1451285" "a.py"
            "8ff436def1451285599a1b1ad70800493b8dcafde2912e1a38345633054e4c26" "python"
            "fp")] ∧
      Bloom.contains mmh3 (Bloom.CompressedBloomFilter.mk 10000000 8 1 [7] [0] [])
        "artifact-8ff436def1451285" = false := by
  intro mmh3
  refine ⟨by decide, ?_⟩
  have hp : mmh3 "artifact-8ff436def1451285" 7 % 8 / 8 = 0 :=
    Nat.div_eq_of_lt (Nat.mod_lt _ (by norm_num))
  simp [Bloom.contains, Bloom.hashesOf, Bloom.getBit, hp]

namespace Bloom

theorem log_two_pos : (0 : ℝ) < Real.log 2 := Real.log_pos (by norm_num)

theorem log_two_lt_one : Real.log 2 < 1 := by
  have h := Real.log_lt_sub_one_of_pos (x := 2) (by norm_num) (by norm_num)
  linarith

/-- `log 1000 < log 1024 = 10 log 2`. -/
theorem log_thousand_lt : Real.log 1000 < 10 * Real.log 2 := by
  have h1 : Real.log 1000 < Real.log 1024 := Real.log_lt_log (by norm_num) (by norm_num)
  have h2 : Real.log 1024 = 10 * Real.log 2 := by
    rw [show (1024 : ℝ) = 2 ^ (10 : ℕ) by norm_num, Real.log_pow]
    norm_num
  linarith

/-- `log 1000` exceeds `9 log 2 = log 512` by more than `(log 2)² / 10⁷`
(the slack the floor of the bit count can cost). -/
theorem log_thousand_gt :
    9 * Real.log 2 + (Real.log 2) ^ 2 / 10000000 < Real.log 1000 := by
  have h512 : Real.log 512 = 9 * Real.log 2 := by
    rw [show (512 : ℝ) = 2 ^ (9 : ℕ) by norm_num, Real.log_pow]
    norm_num
  have hdiv : Real.log ((1000 : ℝ) / 512) = Real.log 1000 - Real.log 512 :=
    Real.log_div (by norm_num) (by norm_num)
  have hinv : Real.log ((1000 : ℝ) / 512) = -Real.log ((512 : ℝ) / 1000) := by
    rw [← Real.log_inv]
    norm_num
  have hle : Real.log ((512 : ℝ) / 1000) ≤ (512 : ℝ) / 1000 - 1 :=
    Real.log_le_sub_one_of_pos (by norm_num)
  have hsq : (Real.log 2) ^ 2 < 1 := by
    have h0 := log_two_pos
    have h1 := log_two_lt_one
    nlinarith
  nlinarith [hdiv, hinv, hle, h512]

/-- At the target configuration the `int()` in `__init__` is a floor
(the argument is non-negative). -/
theorem size_bits_target :
    init_size_bits 10000000 (1 / 1000) =
      ⌊(10000000 : ℝ) * Real.log 1000 / (Real.log 2) ^ 2⌋ := by
  unfold init_size_bits pyTrunc
  have harg : -((10000000 : ℕ) : ℝ) * Real.log (1 / 1000) / (Real.log 2) ^ 2 =
      (10000000 : ℝ) * Real.log 1000 / (Real.log 2) ^ 2 := by
    rw [show (1 : ℝ) / 1000 = ((1000 : ℝ))⁻¹ by norm_num, Real.log_inv]
    push_cast
    ring
  rw [harg, if_pos]
  have h1000 : (0 : ℝ) ≤ Real.log 1000 := Real.log_nonneg (by norm_num)
  positivity

/-- The real value `(size_bits / n) · log 2` computed by `__init__` at
`n = 10⁷, p = 10⁻³` lies strictly between 9 and 10. -/
theorem kreal_bounds :
    (9 : ℝ) < ((init_size_bits 10000000 (1 / 1000) : ℝ) / ((10000000 : ℕ) : ℝ)) *
        Real.log 2 ∧
    ((init_size_bits 10000000 (1 / 1000) : ℝ) / ((10000000 : ℕ) : ℝ)) * Real.log 2 < 10 := by
  have hL0 := log_two_pos
  have hL2 : (0 : ℝ) < (Real.log 2) ^ 2 := by positivity
  have hub := log_thousand_lt
  have hlb := log_thousand_gt
  set L := Real.log 2 with hLdef
  set A : ℝ := (10000000 : ℝ) * Real.log 1000 / L ^ 2 with hA
  have hm : init_size_bits 10000000 (1 / 1000) = ⌊A⌋ := size_bits_target
  set x : ℝ := (⌊A⌋ : ℝ) with hx
  have hfl : x ≤ A := Int.floor_le A
  have hfg : A - 1 < x := Int.sub_one_lt_floor A
  have hA2 : A * L ^ 2 = 10000000 * Real.log 1000 := by
    rw [hA]
    field_simp
  rw [hm]
  push_cast
  constructor
  · have h3 : x * L ^ 2 > 10000000 * Real.log 1000 - L ^ 2 := by nlinarith [hfg, hL2, hA2]
    have h4 : x * L ^ 2 > 9 * 10000000 * L := by nlinarith [h3, hlb]
    have h5 : 9 * 10000000 < x * L := by nlinarith [h4, hL0]
    calc (9 : ℝ) = 9 * 10000000 / 10000000 := by norm_num
    _ < x * L / 10000000 := by linarith [h5]
    _ = x / 10000000 * L := by ring
  · have h3 : x * L ^ 2 ≤ 10000000 * Real.log 1000 := by nlinarith [hfl, hL2, hA2]
    have h4 : x * L ^ 2 < 10 * 10000000 * L := by nlinarith [h3, hub, hL0]
    have h5 : x * L < 10 * 10000000 := by nlinarith [h4, hL0]
    calc x / 10000000 * L = x * L / 10000000 := by ring
    _ < 10 * 10000000 / 10000000 := by linarith [h5]
    _ = 10 := by norm_num

/-- The hash count `__init__` computes at `n = 10⁷, p = 10⁻³` is 9. -/
theorem num_hashes_target : init_num_hashes 10000000 (1 / 1000) = 9 := by
  obtain ⟨h9, h10⟩ := kreal_bounds
  unfold init_num_hashes pyTrunc
  rw [if_pos (by linarith)]
  refine Int.floor_eq_iff.mpr ⟨?_, ?_⟩ <;> push_cast <;> linarith

/-- The ceiling the specification prescribes would give 10 at the same
configuration. -/
theorem ceil_num_hashes_target :
    ⌈((init_size_bits 10000000 (1 / 1000) : ℝ) / ((10000000 : ℕ) : ℝ)) * Real.log 2⌉ =
      10 := by
  obtain ⟨h9, h10⟩ := kreal_bounds
  refine Int.ceil_eq_iff.mpr ⟨?_, ?_⟩ <;> push_cast <;> linarith

end Bloom

/-- C6 counterexample: at the claim's own instance `n = 10⁷, p = 10⁻³`
the constructor computes `num_hashes = 9`, not the 10 the claim asserts
(Python `int()` truncates; it is not a ceiling). -/
theorem C6_counterexample_hash_count :
    Bloom.init_num_hashes 10000000 (1 / 1000) ≠ 10 := by
  rw [Bloom.num_hashes_target]
  decide

/-- C6 amended: `__init__` computes `m = ⌊-n·ln p/(ln 2)²⌋` and
`k = ⌊(m/n)·ln 2⌋` (`int()` truncation, a floor on these non-negative
values), not ceilings; for `n = 10⁷, p = 10⁻³` this gives `k = 9`, where
the ceiling of the same quantity is 10. -/
theorem C6_amended_sizing :
    Bloom.init_size_bits 10000000 (1 / 1000) =
        ⌊(10000000 : ℝ) * Real.log 1000 / (Real.log 2) ^ 2⌋ ∧
    Bloom.init_num_hashes 10000000 (1 / 1000) = 9 ∧
    ⌈((Bloom.init_size_bits 10000000 (1 / 1000) : ℝ) / ((10000000 : ℕ) : ℝ)) *
        Real.log 2⌉ = 10 :=
  ⟨Bloom.size_bits_target, Bloom.num_hashes_target, Bloom.ceil_num_hashes_target⟩
